import Mathlib

/-!
Shallow embedding of the aemet-go repository (AEMET OpenData API client):
the two-step redirect fetcher with retry (`getRedir`, `getRedirWithRetry`,
`GetForecastFor`), the municipality directory (`initializeMunicipalities`
and the four public lookups), and the CLI forecast-summary selection logic
(`extractPeriodData`, `buildWeatherSummary`).

Go strings are modelled as `List Char`; Go's `map[string]T` values are
modelled as association lists with unique keys (the code only reads maps
through key lookups, so iteration order never matters); HTTP transport is
modelled as a function from request URL to either a transport-error message
or a response body; a body is `Option Json` where `none` stands for a body
that is not valid JSON.
-/

namespace Aemet

/-- Go strings, modelled as lists of characters. -/
abbrev Str := List Char

/-- Model of `strings.ToLower`. Go lowercases per Unicode; the claims only exercise
ASCII, where `Char.toLower` agrees. -/
def goToLower (s : Str) : Str := s.map Char.toLower

/-- Model of `unicode.IsSpace` restricted to the ASCII whitespace the claims use. -/
def isWS (c : Char) : Bool := c.isWhitespace

/-- Model of `strings.TrimSpace`: drop whitespace from both ends. -/
def goTrimSpace (s : Str) : Str :=
  ((s.dropWhile isWS).reverse.dropWhile isWS).reverse

/-- Model of `strings.TrimLeft(s, cutset)`: drop leading characters that appear
anywhere in `cutset` (a character-set trim, not a prefix strip). -/
def goTrimLeft (s cutset : Str) : Str :=
  s.dropWhile (fun c => cutset.contains c)

/-- Model of `strings.HasPrefix(s, pre)`. -/
def goHasPre (s pre : Str) : Bool := pre.isPrefixOf s

/-- Model of `strings.Contains(s, sub)`. -/
def goContains (s sub : Str) : Bool :=
  if sub.isPrefixOf s then true
  else
    match s with
    | [] => false
    | _ :: t => goContains t sub

/-- Model of `%d` formatting of an integer. -/
def goItoa (n : Int) : Str := (toString n).toList

/-! ## JSON values

The wire format, abstracted past the textual layer: a response body either
fails to parse (`none` at the transport model) or parses to a `Json` tree.
Objects are association lists; the payloads involved never carry duplicate
keys. Numbers in the forecast payloads are integers. -/

inductive Json where
  | null : Json
  | bool (b : Bool) : Json
  | num (n : Int) : Json
  | str (s : Str) : Json
  | arr (elems : List Json) : Json
  | obj (fields : List (Str × Json)) : Json

/-- First binding of a key in a JSON object. -/
def jLookup (fields : List (Str × Json)) (key : Str) : Option Json :=
  match fields with
  | [] => none
  | (k, v) :: t => if k = key then some v else jLookup t key

/-! ## Errors

One constructor per `fmt.Errorf` site in the source; each carries the data
the corresponding format string interpolates. -/

inductive GoErr where
  /-- an error returned by `http.Client.Get` itself -/
  | transport (msg : Str) : GoErr
  /-- Model of `fmt.Errorf("error requesting data: %w", err)` -/
  | requestErr (cause : GoErr) : GoErr
  /-- Model of `fmt.Errorf("error decoding data: %w", err)`; the cause is the
  decoder's own message -/
  | decodeErr (cause : Str) : GoErr
  /-- Model of `fmt.Errorf("request failed after %d attempts: %w", maxRetries+1, lastErr)` -/
  | retryFailed (attempts : Nat) (cause : Option GoErr) : GoErr
  /-- Model of `fmt.Errorf("municipality not found: %s", name)` -/
  | notFound (name : Str) : GoErr
  /-- Model of `fmt.Errorf("municipality ID not found: %s", id)` -/
  | idNotFound (id : Str) : GoErr
  /-- Model of `fmt.Errorf("no data found for municipality %s", muni)` -/
  | noData (muni : Str) : GoErr
  /-- Model of `fmt.Errorf("error reading municipalities data: %w", err)` -/
  | readErr (cause : Str) : GoErr
  /-- Model of `fmt.Errorf("error parsing municipalities data: %w", err)` -/
  | parseErr (cause : Str) : GoErr
  /-- Model of `fmt.Errorf("no forecast data available")` -/
  | noForecastData : GoErr

/-! ## Data Fetcher (client.go: `getRedir`, `getRedirWithRetry`) -/

/-- Model of `aemetApi` constant from the source. -/
def aemetApi : Str := "https://opendata.aemet.es/opendata".toList

/-- Model of `maxRetries` constant from the source. -/
def maxRetries : Nat := 3

/-- Model of `baseBackoffMs` constant from the source. -/
def baseBackoffMs : Nat := 100

/-- The HTTP transport: maps a request URL to either a transport-error
message (`http.Client.Get` failing) or a body; the body is `none` when it
is not valid JSON (so any `json.Decoder.Decode` on it fails). -/
abbrev Net := Str → Except Str (Option Json)

/-- Model of `json.NewDecoder(r.Body).Decode(&data)` with `data : map[string]any`:
fails on invalid JSON or on a top level that is neither an object nor
`null` (`null` leaves the map `nil`, hence no bindings). -/
def decodeMapAny (body : Option Json) : Except Str (List (Str × Json)) :=
  match body with
  | none => .error "invalid JSON".toList
  | some (Json.obj fields) => .ok fields
  | some Json.null => .ok []
  | some _ => .error "cannot unmarshal into map".toList

/-- Model of `fmt.Sprintf` `%s` applied to a `map[string]any` lookup result.
A missing key or a JSON `null` is a nil `any`, which `%s` renders as
`%!s(<nil>)`; a string renders as itself. The remaining cases abstract
fmt's fallback rendering of non-string values with a marker; no code path
exercised by the spec reaches them (the API's `"datos"` values are URLs,
i.e. strings, and the failure mode of interest is the missing key). -/
def goFmtAny (v : Option Json) : Str :=
  match v with
  | none => "%!s(<nil>)".toList
  | some Json.null => "%!s(<nil>)".toList
  | some (Json.str s) => s
  | some (Json.bool b) => "%!s(bool=".toList ++ (toString b).toList ++ ")".toList
  | some (Json.num n) => "%!s(float64=".toList ++ goItoa n ++ ")".toList
  | some (Json.arr _) => "%!s(slice)".toList
  | some (Json.obj _) => "%!s(map)".toList

/-- The first-request URL: `fmt.Sprintf("%s/%s?api_key=%s", aemetApi, path, key)`. -/
def reqUrl (apiKey path : Str) : Str :=
  aemetApi ++ "/".toList ++ path ++ "?api_key=".toList ++ apiKey

/-- The key extracted from the first response body. -/
def datosKey : Str := "datos".toList

/-- The second-request URL: `fmt.Sprintf("%s?api_key=%s", data["datos"], key)`. -/
def redirUrl (datos : Option Json) (apiKey : Str) : Str :=
  goFmtAny datos ++ "?api_key=".toList ++ apiKey

/-- One GET followed by a decode into the caller's target shape, i.e. the
second half of `getRedir`. `dec` models `json.Decoder.Decode(t)` for the
caller's target type: `none` on schema mismatch. -/
def fetchDecode (net : Net) (dec : Json → Option α) (url : Str) : Except GoErr α :=
  match net url with
  | .error e => .error (.requestErr (.transport e))
  | .ok none => .error (.decodeErr "invalid JSON".toList)
  | .ok (some j) =>
    match dec j with
    | none => .error (.decodeErr "schema mismatch".toList)
    | some v => .ok v

/-- Result of a fetch, instrumented with the list of URLs actually
requested (in order). -/
structure FetchOut (α : Type) where
  result : Except GoErr α
  requests : List Str

/-- Model of `(*Client).getRedir`: GET the endpoint, decode the body as
`map[string]any`, format `data["datos"]` into the follow-up URL, GET it,
decode into the target. -/
def getRedir (net : Net) (dec : Json → Option α) (apiKey path : Str) : FetchOut α :=
  let u1 := reqUrl apiKey path
  match net u1 with
  | .error e => ⟨.error (.requestErr (.transport e)), [u1]⟩
  | .ok body1 =>
    match decodeMapAny body1 with
    | .error msg => ⟨.error (.decodeErr msg), [u1]⟩
    | .ok data =>
      let u2 := redirUrl (jLookup data datosKey) apiKey
      ⟨fetchDecode net dec u2, [u1, u2]⟩

/-- Result of the retry loop, instrumented with the number of `getRedir`
invocations made and the backoff sleeps (in ms, in order). -/
structure RetryOut (α : Type) where
  result : Except GoErr α
  attempts : Nat
  sleeps : List Nat

/-- The loop body of `getRedirWithRetry`. The source iterates
`for attempt := 0; attempt <= maxRetries; attempt++`; here `fuel`
is the number of iterations left (`maxRetries + 1 - attempt`), so the
recursion is structural and the loop-exit case is `fuel = 0`.
`int(math.Pow(2, float64(attempt-1)))` is exactly `2 ^ (attempt - 1)` for
the attempt values the loop reaches. The transport may answer differently
on each attempt, so it is indexed by the attempt number. -/
def retryAux (net : Nat → Net) (dec : Json → Option α) (apiKey path : Str) :
    Nat → Nat → Option GoErr → List Nat → Nat → RetryOut α
  | 0, _, lastErr, sleeps, count =>
    ⟨.error (.retryFailed (maxRetries + 1) lastErr), count, sleeps⟩
  | fuel + 1, attempt, _lastErr, sleeps, count =>
    let sleeps2 := if attempt > 0 then sleeps ++ [baseBackoffMs * 2 ^ (attempt - 1)] else sleeps
    match (getRedir (net attempt) dec apiKey path).result with
    | .ok v => ⟨.ok v, count + 1, sleeps2⟩
    | .error e => retryAux net dec apiKey path fuel (attempt + 1) (some e) sleeps2 (count + 1)

/-- Model of `(*Client).getRedirWithRetry`. -/
def getRedirWithRetry (net : Nat → Net) (dec : Json → Option α) (apiKey path : Str) :
    RetryOut α :=
  retryAux net dec apiKey path (maxRetries + 1) 0 none [] 0

/-! ## Forecast data model (municipality.go)

The structs mirror the source's JSON-tagged Go structs field for field.
`Version float64` is the one floating-point field in the schema; no claim
depends on it, and it is abstracted as an integer. -/

structure ProbPrecipitacion where
  value : Int
  periodo : Str
deriving DecidableEq

structure CotaNieveProv where
  value : Str
  periodo : Str
deriving DecidableEq

structure EstadoCielo where
  value : Str
  periodo : Str
  descripcion : Str
deriving DecidableEq

structure Viento where
  direccion : Str
  velocidad : Int
  periodo : Str
deriving DecidableEq

structure RachaMax where
  value : Str
  periodo : Str
deriving DecidableEq

structure Dato where
  value : Int
  hora : Int
deriving DecidableEq

structure Temperatura where
  maxima : Int
  minima : Int
  dato : List Dato
deriving DecidableEq

structure Dia where
  probPrecipitacion : List ProbPrecipitacion
  cotaNieveProv : List CotaNieveProv
  estadoCielo : List EstadoCielo
  viento : List Viento
  rachaMax : List RachaMax
  temperatura : Temperatura
  sensTermica : Temperatura
  humedadRelativa : Temperatura
  uvMax : Int
  fecha : Str
deriving DecidableEq

structure Prediccion where
  dia : List Dia
deriving DecidableEq

structure Municipality where
  elaborado : Str
  nombre : Str
  provincia : Str
  prediccion : Prediccion
  id : Int
  version : Int
deriving DecidableEq

/-- Zero value of `Temperatura`. -/
def Temperatura.zero : Temperatura := ⟨0, 0, []⟩

/-! ### `encoding/json` decoding into the Go structs

Go's unmarshalling rules, restricted to the shapes above: a JSON `null`
leaves the target at its zero value (so it decodes successfully to the
zero value); a missing object key leaves the field at its zero value;
unknown keys are ignored; a type mismatch is an error (`none`). -/

/-- Decode a JSON value into a Go `string`. -/
def decStr : Json → Option Str
  | Json.str s => some s
  | Json.null => some []
  | _ => none

/-- Decode a JSON value into a Go `int`. -/
def decInt : Json → Option Int
  | Json.num n => some n
  | Json.null => some 0
  | _ => none

/-- Traverse a decoder over a list of JSON values. -/
def decAll (f : Json → Option α) : List Json → Option (List α)
  | [] => some []
  | j :: t =>
    match f j with
    | none => none
    | some v =>
      match decAll f t with
      | none => none
      | some vs => some (v :: vs)

/-- Decode a JSON value into a Go slice (`null` decodes to the nil slice). -/
def decList (f : Json → Option α) : Json → Option (List α)
  | Json.null => some []
  | Json.arr xs => decAll f xs
  | _ => none

/-- Look a field up in an object and decode it, defaulting to the zero
value when the key is absent. -/
def decField (fields : List (Str × Json)) (key : Str) (f : Json → Option α)
    (zero : α) : Option α :=
  match jLookup fields key with
  | none => some zero
  | some v => f v

def decProbPrecipitacion : Json → Option ProbPrecipitacion
  | Json.null => some ⟨0, []⟩
  | Json.obj fs => do
    let value ← decField fs "value".toList decInt 0
    let periodo ← decField fs "periodo".toList decStr []
    some ⟨value, periodo⟩
  | _ => none

def decCotaNieveProv : Json → Option CotaNieveProv
  | Json.null => some ⟨[], []⟩
  | Json.obj fs => do
    let value ← decField fs "value".toList decStr []
    let periodo ← decField fs "periodo".toList decStr []
    some ⟨value, periodo⟩
  | _ => none

def decEstadoCielo : Json → Option EstadoCielo
  | Json.null => some ⟨[], [], []⟩
  | Json.obj fs => do
    let value ← decField fs "value".toList decStr []
    let periodo ← decField fs "periodo".toList decStr []
    let descripcion ← decField fs "descripcion".toList decStr []
    some ⟨value, periodo, descripcion⟩
  | _ => none

def decViento : Json → Option Viento
  | Json.null => some ⟨[], 0, []⟩
  | Json.obj fs => do
    let direccion ← decField fs "direccion".toList decStr []
    let velocidad ← decField fs "velocidad".toList decInt 0
    let periodo ← decField fs "periodo".toList decStr []
    some ⟨direccion, velocidad, periodo⟩
  | _ => none

def decRachaMax : Json → Option RachaMax
  | Json.null => some ⟨[], []⟩
  | Json.obj fs => do
    let value ← decField fs "value".toList decStr []
    let periodo ← decField fs "periodo".toList decStr []
    some ⟨value, periodo⟩
  | _ => none

def decDato : Json → Option Dato
  | Json.null => some ⟨0, 0⟩
  | Json.obj fs => do
    let value ← decField fs "value".toList decInt 0
    let hora ← decField fs "hora".toList decInt 0
    some ⟨value, hora⟩
  | _ => none

def decTemperatura : Json → Option Temperatura
  | Json.null => some Temperatura.zero
  | Json.obj fs => do
    let maxima ← decField fs "maxima".toList decInt 0
    let minima ← decField fs "minima".toList decInt 0
    let dato ← decField fs "dato".toList (decList decDato) []
    some ⟨maxima, minima, dato⟩
  | _ => none

def decDia : Json → Option Dia
  | Json.null => some ⟨[], [], [], [], [], Temperatura.zero, Temperatura.zero, Temperatura.zero, 0, []⟩
  | Json.obj fs => do
    let prob ← decField fs "probPrecipitacion".toList (decList decProbPrecipitacion) []
    let cota ← decField fs "cotaNieveProv".toList (decList decCotaNieveProv) []
    let cielo ← decField fs "estadoCielo".toList (decList decEstadoCielo) []
    let viento ← decField fs "viento".toList (decList decViento) []
    let racha ← decField fs "rachaMax".toList (decList decRachaMax) []
    let temp ← decField fs "temperatura".toList decTemperatura Temperatura.zero
    let sens ← decField fs "sensTermica".toList decTemperatura Temperatura.zero
    let hum ← decField fs "humedadRelativa".toList decTemperatura Temperatura.zero
    let uv ← decField fs "uvMax".toList decInt 0
    let fecha ← decField fs "fecha".toList decStr []
    some ⟨prob, cota, cielo, viento, racha, temp, sens, hum, uv, fecha⟩
  | _ => none

def decPrediccion : Json → Option Prediccion
  | Json.null => some ⟨[]⟩
  | Json.obj fs => do
    let dia ← decField fs "dia".toList (decList decDia) []
    some ⟨dia⟩
  | _ => none

def decMunicipality : Json → Option Municipality
  | Json.null => some ⟨[], [], [], ⟨[]⟩, 0, 0⟩
  | Json.obj fs => do
    let elaborado ← decField fs "elaborado".toList decStr []
    let nombre ← decField fs "nombre".toList decStr []
    let provincia ← decField fs "provincia".toList decStr []
    let pred ← decField fs "prediccion".toList decPrediccion ⟨[]⟩
    let id ← decField fs "id".toList decInt 0
    let version ← decField fs "version".toList decInt 0
    some ⟨elaborado, nombre, provincia, pred, id, version⟩
  | _ => none

/-- Decode into `*Municipality`: a JSON `null` becomes a nil pointer. -/
def decMuniPtr : Json → Option (Option Municipality)
  | Json.null => some none
  | j => (decMunicipality j).map some

/-- Decode into `[]*Municipality`, the target type of `GetForecastFor`. -/
def decMunicipalityList : Json → Option (List (Option Municipality)) :=
  decList decMuniPtr

/-- The endpoint path built by `GetForecastFor`. -/
def forecastPath (muni : Str) : Str :=
  "api/prediccion/especifica/municipio/diaria/".toList ++ muni

/-- Model of `(*Client).GetForecastFor`: retried two-step fetch into
`[]*Municipality`; an empty decoded slice is the no-data error, otherwise
the first element is returned. -/
def GetForecastFor (net : Nat → Net) (apiKey muni : Str) :
    Except GoErr (Option Municipality) :=
  match (getRedirWithRetry net decMunicipalityList apiKey (forecastPath muni)).result with
  | .error e => .error (.requestErr e)
  | .ok m =>
    match m with
    | [] => .error (.noData muni)
    | m0 :: _ => .ok m0

/-! ## Municipality Directory (municipalities.go) -/

/-- The directory record, mirroring the `MunicipalityInfo` struct. -/
structure MunicipalityInfo where
  latitude : Str
  idOld : Str
  url : Str
  latitudeDec : Str
  altitude : Str
  capital : Str
  numHab : Str
  zonaComarcal : Str
  destacada : Str
  name : Str
  longitudeDec : Str
  id : Str
  longitude : Str
deriving DecidableEq

/-- A record whose every field is empty, for building concrete inputs. -/
def blankMuni : MunicipalityInfo :=
  ⟨[], [], [], [], [], [], [], [], [], [], [], [], []⟩

/-- The outcome of reading and JSON-parsing the embedded
`data/municipalities.json` resource: the dataset file itself is not part
of the sources, so the read/parse pipeline is a parameter. -/
inductive EmbeddedData where
  /-- Model of `municipalitiesFS.ReadFile` failed with this message. -/
  | readFailure (msg : Str) : EmbeddedData
  /-- Model of `json.Unmarshal` failed with this message. -/
  | parseFailure (msg : Str) : EmbeddedData
  /-- the resource parsed into these records, in file order. -/
  | parsed (records : List MunicipalityInfo) : EmbeddedData

/-- The package-level mutable state: the `initialized` flag and the
`municipalities` slice. -/
structure DirState where
  initialized : Bool
  municipalities : List MunicipalityInfo
deriving DecidableEq

/-- Model of `strings.TrimLeft(m.ID, "id")` as applied by the load step. -/
def stripID (s : Str) : Str := goTrimLeft s "id".toList

/-- Model of `initializeMunicipalities`: a no-op once `initialized` is set;
otherwise read and parse the embedded resource, strip each record's
identifier with `TrimLeft(id, "id")`, and set the flag. On failure the
observable state is unchanged (the flag stays down, so the error recurs on
every public call). -/
def initializeMunicipalities (emb : EmbeddedData) (st : DirState) :
    Except GoErr Unit × DirState :=
  if st.initialized then (.ok (), st)
  else
    match emb with
    | .readFailure msg => (.error (.readErr msg), st)
    | .parseFailure msg => (.error (.parseErr msg), st)
    | .parsed records =>
      (.ok (), ⟨true, records.map (fun m => { m with id := stripID m.id })⟩)

/-- The scan loop of `FindMunicipalityID`; `normalized` is the lowered,
trimmed query and `name` the original query (used in the error). -/
def findIDLoop (normalized name : Str) : List MunicipalityInfo → Except GoErr Str
  | [] => .error (.notFound name)
  | m :: rest =>
    if goToLower m.name = normalized then
      .ok (if goHasPre m.id "id".toList then m.id.drop 2 else m.id)
    else findIDLoop normalized name rest

/-- Model of `FindMunicipalityID`: initialize, then scan for a case-insensitive
exact name match and return its identifier. -/
def FindMunicipalityID (emb : EmbeddedData) (st : DirState) (name : Str) :
    Except GoErr Str × DirState :=
  match initializeMunicipalities emb st with
  | (.error e, st2) => (.error e, st2)
  | (.ok _, st2) =>
    (findIDLoop (goToLower (goTrimSpace name)) name st2.municipalities, st2)

/-- Model of `FindMunicipalitiesByPartialName`: initialize, then keep the records
whose lowered name contains the lowered, trimmed query. -/
def FindMunicipalitiesByPartialName (emb : EmbeddedData) (st : DirState)
    (partialName : Str) : Except GoErr (List MunicipalityInfo) × DirState :=
  match initializeMunicipalities emb st with
  | (.error e, st2) => (.error e, st2)
  | (.ok _, st2) =>
    (.ok (st2.municipalities.filter
        (fun m => goContains (goToLower m.name) (goToLower (goTrimSpace partialName)))),
      st2)

/-- Model of `GetAllMunicipalities`. -/
def GetAllMunicipalities (emb : EmbeddedData) (st : DirState) :
    Except GoErr (List MunicipalityInfo) × DirState :=
  match initializeMunicipalities emb st with
  | (.error e, st2) => (.error e, st2)
  | (.ok _, st2) => (.ok st2.municipalities, st2)

/-- The scan loop of `GetMunicipalityByID`; `searchID` is the re-prefixed
query and `origId` the original query (used in the error). -/
def findByIDLoop (searchID origId : Str) : List MunicipalityInfo → Except GoErr MunicipalityInfo
  | [] => .error (.idNotFound origId)
  | m :: rest =>
    if m.id = searchID then .ok m else findByIDLoop searchID origId rest

/-- Model of `GetMunicipalityByID`: initialize, re-add the `"id"` prefix to the
query when absent, then scan for an exact identifier match. -/
def GetMunicipalityByID (emb : EmbeddedData) (st : DirState) (id : Str) :
    Except GoErr MunicipalityInfo × DirState :=
  match initializeMunicipalities emb st with
  | (.error e, st2) => (.error e, st2)
  | (.ok _, st2) =>
    let searchID := if goHasPre id "id".toList then id else "id".toList ++ id
    (findByIDLoop searchID id st2.municipalities, st2)

/-! ## CLI summary logic (main.go: `extractPeriodData`, `get24hPeriodData`,
`buildWeatherSummary` and the emoji pickers they use) -/

/-- The CLI's `PeriodData` struct. -/
structure PeriodData where
  rainProb : Int
  skyDesc : Str
  windDir : Str
  windSpeed : Int
deriving DecidableEq

/-- Zero value of `PeriodData`. -/
def PeriodData.zero : PeriodData := ⟨0, [], [], 0⟩

/-- A `map[string]PeriodData`, as an association list with unique keys
(the code reads it only through key lookups). -/
abbrev PMap := List (Str × PeriodData)

/-- Model of `pd, ok := periodData[k]` — lookup with presence. -/
def pmGetD (m : PMap) (k : Str) : Option PeriodData :=
  match m with
  | [] => none
  | (k0, v0) :: t => if k0 = k then some v0 else pmGetD t k

/-- Model of `periodData[k]` in read position: the zero value when absent. -/
def pmGet (m : PMap) (k : Str) : PeriodData :=
  (pmGetD m k).getD PeriodData.zero

/-- Model of `periodData[k] = v`. -/
def pmPut (m : PMap) (k : Str) (v : PeriodData) : PMap :=
  match m with
  | [] => [(k, v)]
  | (k0, v0) :: t => if k0 = k then (k, v) :: t else (k0, v0) :: pmPut t k v

def defaultKey : Str := "default".toList
def morningKey : Str := "00-12".toList
def afternoonKey : Str := "12-24".toList
def fullDayKey : Str := "00-24".toList

/-- The accumulator threaded through `extractPeriodData`: the period map
and the three presence flags. -/
structure ExtractAcc where
  pd : PMap
  hasMorningData : Bool
  hasAfternoonData : Bool
  has24hData : Bool

/-- Loop body over `day.ProbPrecipitacion`. -/
def probStep (acc : ExtractAcc) (prob : ProbPrecipitacion) : ExtractAcc :=
  if prob.periodo = [] then
    let upd := match pmGetD acc.pd defaultKey with
      | some p => pmPut acc.pd defaultKey { p with rainProb := prob.value }
      | none => pmPut acc.pd defaultKey { PeriodData.zero with rainProb := prob.value }
    { acc with pd := upd, has24hData := true }
  else
    let upd := match pmGetD acc.pd prob.periodo with
      | some p => pmPut acc.pd prob.periodo { p with rainProb := prob.value }
      | none => pmPut acc.pd prob.periodo { PeriodData.zero with rainProb := prob.value }
    if prob.periodo = morningKey then { acc with pd := upd, hasMorningData := true }
    else if prob.periodo = afternoonKey then { acc with pd := upd, hasAfternoonData := true }
    else if prob.periodo = fullDayKey then { acc with pd := upd, has24hData := true }
    else { acc with pd := upd }

/-- Loop body over `day.EstadoCielo`. -/
def skyStep (acc : ExtractAcc) (sky : EstadoCielo) : ExtractAcc :=
  if sky.periodo = [] then
    let upd := match pmGetD acc.pd defaultKey with
      | some p => pmPut acc.pd defaultKey { p with skyDesc := sky.descripcion }
      | none => pmPut acc.pd defaultKey { PeriodData.zero with skyDesc := sky.descripcion }
    { acc with pd := upd, has24hData := true }
  else
    let upd := match pmGetD acc.pd sky.periodo with
      | some p => pmPut acc.pd sky.periodo { p with skyDesc := sky.descripcion }
      | none => pmPut acc.pd sky.periodo { PeriodData.zero with skyDesc := sky.descripcion }
    if sky.periodo = morningKey then { acc with pd := upd, hasMorningData := true }
    else if sky.periodo = afternoonKey then { acc with pd := upd, hasAfternoonData := true }
    else if sky.periodo = fullDayKey then { acc with pd := upd, has24hData := true }
    else { acc with pd := upd }

/-- Loop body over `day.Viento` (sets both direction and speed). -/
def windStep (acc : ExtractAcc) (wind : Viento) : ExtractAcc :=
  if wind.periodo = [] then
    let upd := match pmGetD acc.pd defaultKey with
      | some p => pmPut acc.pd defaultKey { p with windDir := wind.direccion, windSpeed := wind.velocidad }
      | none => pmPut acc.pd defaultKey { PeriodData.zero with windDir := wind.direccion, windSpeed := wind.velocidad }
    { acc with pd := upd, has24hData := true }
  else
    let upd := match pmGetD acc.pd wind.periodo with
      | some p => pmPut acc.pd wind.periodo { p with windDir := wind.direccion, windSpeed := wind.velocidad }
      | none => pmPut acc.pd wind.periodo { PeriodData.zero with windDir := wind.direccion, windSpeed := wind.velocidad }
    if wind.periodo = morningKey then { acc with pd := upd, hasMorningData := true }
    else if wind.periodo = afternoonKey then { acc with pd := upd, hasAfternoonData := true }
    else if wind.periodo = fullDayKey then { acc with pd := upd, has24hData := true }
    else { acc with pd := upd }

/-- Model of `extractPeriodData`: fold the three per-period arrays of a day into
the period map and presence flags. -/
def extractPeriodData (day : Dia) : ExtractAcc :=
  let a0 : ExtractAcc := ⟨[], false, false, false⟩
  let a1 := day.probPrecipitacion.foldl probStep a0
  let a2 := day.estadoCielo.foldl skyStep a1
  day.viento.foldl windStep a2

/-- Model of `get24hPeriodData`: start from the `"00-24"` entry and fill each
still-zero component from the `"default"` (no-period) entry. -/
def get24hPeriodData (periodData : PMap) : PeriodData :=
  let data := pmGet periodData fullDayKey
  match pmGetD periodData defaultKey with
  | none => data
  | some defaultData =>
    let data := if data.rainProb = 0 && defaultData.rainProb > 0 then
        { data with rainProb := defaultData.rainProb } else data
    let data := if data.skyDesc = [] && defaultData.skyDesc ≠ [] then
        { data with skyDesc := defaultData.skyDesc } else data
    if data.windDir = [] && defaultData.windDir ≠ [] then
      { data with windDir := defaultData.windDir, windSpeed := defaultData.windSpeed }
    else data

/-- Model of `getWindDirectionEmoji`. -/
def getWindDirectionEmoji (direction : Str) : Str :=
  if direction = "N".toList then "⬇️".toList
  else if direction = "NE".toList then "↙️".toList
  else if direction = "E".toList then "⬅️".toList
  else if direction = "SE".toList then "↖️".toList
  else if direction = "S".toList then "⬆️".toList
  else if direction = "SW".toList then "↗️".toList
  else if direction = "W".toList then "➡️".toList
  else if direction = "NW".toList then "↘️".toList
  else if direction = "C".toList then "🔄".toList
  else "💨".toList

/-- Model of `getWeatherEmoji`. -/
def getWeatherEmoji (desc0 : Str) (rainProb : Int) : Str :=
  let desc := goToLower desc0
  if rainProb > 70 then "🌧️".toList
  else if rainProb > 30 then "🌦️".toList
  else if goContains desc "tormenta".toList then "⛈️".toList
  else if goContains desc "nieve".toList then "❄️".toList
  else if goContains desc "niebla".toList then "🌫️".toList
  else if goContains desc "nubos".toList then
    if goContains desc "poco".toList then "🌤️".toList
    else if goContains desc "muy".toList then "☁️".toList
    else "⛅".toList
  else if goContains desc "despejado".toList then "☀️".toList
  else if goContains desc "lluvia".toList then
    if goContains desc "escasa".toList then "🌦️".toList else "🌧️".toList
  else "☀️".toList

/-- The period-selection block of `buildWeatherSummary`: the values the
four local variables `skyDesc`, `rainProb`, `windDir`, `windSpeed` hold
after the `if`/`else if` chain. -/
def summarySelection (acc : ExtractAcc) : PeriodData :=
  if acc.hasMorningData && acc.hasAfternoonData then
    let morningData := pmGet acc.pd morningKey
    let afternoonData := pmGet acc.pd afternoonKey
    let rainSky :=
      if morningData.rainProb > afternoonData.rainProb then
        (morningData.rainProb, morningData.skyDesc)
      else (afternoonData.rainProb, afternoonData.skyDesc)
    let wind :=
      if morningData.windSpeed > afternoonData.windSpeed then
        (morningData.windDir, morningData.windSpeed)
      else (afternoonData.windDir, afternoonData.windSpeed)
    ⟨rainSky.1, rainSky.2, wind.1, wind.2⟩
  else if acc.has24hData then get24hPeriodData acc.pd
  else PeriodData.zero

/-- Model of `buildWeatherSummary`: one-line summary for the first forecast day. -/
def buildWeatherSummary (mun : Municipality) : Except GoErr Str :=
  match mun.prediccion.dia with
  | [] => .error .noForecastData
  | today :: _ =>
    let sel := summarySelection (extractPeriodData today)
    let emoji := getWeatherEmoji sel.skyDesc sel.rainProb
    let summary := emoji ++ " ".toList ++ mun.nombre ++ ": ".toList ++ sel.skyDesc
      ++ " ".toList ++ goItoa today.temperatura.minima ++ "°C-".toList
      ++ goItoa today.temperatura.maxima ++ "°C".toList
    let summary := if sel.rainProb > 0 then
        summary ++ " (💧 ".toList ++ goItoa sel.rainProb ++ "%)".toList
      else summary
    let summary := if sel.windDir ≠ [] && sel.windSpeed > 0 then
        summary ++ " ".toList ++ getWindDirectionEmoji sel.windDir ++ " ".toList
          ++ goItoa sel.windSpeed ++ " km/h".toList
      else summary
    .ok summary

/-! ## Spec-side definitions

Definitions written from the spec's words, to be compared against the
embedded code. Each is named for the claim that needs it. -/

/-- The match set claim C5 describes literally: the records whose display
name contains the query `s` itself — not a trimmed version of it —
case-insensitively, in dataset order. -/
def claimC5Matches (ms : List MunicipalityInfo) (s : Str) : List MunicipalityInfo :=
  ms.filter (fun m => goContains (goToLower m.name) (goToLower s))

/-- Claim C8's description of the load step: strip exactly one literal
leading `"id"` from the raw identifier and change nothing else. -/
def specStripOneId (s : Str) : Str :=
  if goHasPre s "id".toList then s.drop 2 else s

/-- Modelled from the spec: the embedded `data/municipalities.json` file
is not among the sources, so the shape of its records is taken from the
spec — a raw identifier "may carry a legacy prefix", concretely `"id"`
followed by "the bare numeric code used by the forecast endpoint"
(e.g. raw `"id08019"` for code `"08019"`). `specRawId code` builds such a
raw identifier from its bare numeric code. -/
def specRawId (code : Str) : Str := "id".toList ++ code

/-- A bare numeric code: a string of decimal digits. -/
def isNumericCode (s : Str) : Bool := s.all Char.isDigit

/-! ## Concrete instances used by witnesses and counterexamples -/

/-- A decode target for `getRedir` standing for `any`: every valid JSON
body decodes, to itself. -/
def jAny : Json → Option Json := fun j => some j

/-- A directory record for raw dataset identifier `"id08019"`. -/
def muniC1 : MunicipalityInfo :=
  { blankMuni with id := "id08019".toList, name := "Barcelona".toList }

/-- A directory record with a post-load (bare) identifier. -/
def muniMadrid : MunicipalityInfo :=
  { blankMuni with id := "28079".toList, name := "Madrid".toList }

/-- A transport whose first response is a valid JSON object with no
`"datos"` key, and which fails on every other URL the way `http.Get`
fails on a URL with no scheme. -/
def netNoDatos : Net := fun u =>
  if u = reqUrl "K".toList "p".toList then
    .ok (some (Json.obj [("k".toList, Json.num 1)]))
  else .error "unsupported protocol scheme".toList

/-- A transport implementing the spec's two-step example: the first
response is `{"datos": "https://x/y"}` and the redirect target serves
`{"a": 1}`. -/
def netWithDatos : Net := fun u =>
  if u = reqUrl "K".toList "p".toList then
    .ok (some (Json.obj [(datosKey, Json.str "https://x/y".toList)]))
  else if u = "https://x/y?api_key=K".toList then
    .ok (some (Json.obj [("a".toList, Json.num 1)]))
  else .error "unreached".toList

/-- A transport that fails every request on every attempt. -/
def alwaysFailNet : Nat → Net := fun _ _ => .error "boom".toList

/-- A transport under which the forecast endpoint's decoded payload is the
empty sequence `[]`. -/
def netEmptyForecast : Nat → Net := fun _ u =>
  if u = reqUrl "K".toList (forecastPath "08019".toList) then
    .ok (some (Json.obj [(datosKey, Json.str "D".toList)]))
  else .ok (some (Json.arr []))

/-- A transport under which the forecast endpoint's decoded payload is the
one-element sequence `[null]`. -/
def netNullForecast : Nat → Net := fun _ u =>
  if u = reqUrl "K".toList (forecastPath "08019".toList) then
    .ok (some (Json.obj [(datosKey, Json.str "D".toList)]))
  else .ok (some (Json.arr [Json.null]))

/-- A forecast day with 30% morning and 80% afternoon rain probability and
no whole-day entry. -/
def day3080 : Dia :=
  { probPrecipitacion := [⟨30, morningKey⟩, ⟨80, afternoonKey⟩]
    cotaNieveProv := []
    estadoCielo := []
    viento := []
    rachaMax := []
    temperatura := Temperatura.zero
    sensTermica := Temperatura.zero
    humedadRelativa := Temperatura.zero
    uvMax := 0
    fecha := [] }

/-! ## Theorems -/

/-- C1: the identifier round-trip the claim states does not hold. For the
record whose raw dataset identifier is `"id08019"`, `load()` does store the
bare code `"08019"` (first conjunct), but `GetMunicipalityByID` re-prefixes
the bare query to `"id08019"` before comparing it against the stripped
stored identifiers, so the lookup reports not-found instead of returning
the record (second conjunct). -/
theorem getMunicipalityByID_roundtrip_fails :
    (initializeMunicipalities (.parsed [muniC1]) ⟨false, []⟩).2.municipalities.map
        (fun m => m.id) = ["08019".toList]
    ∧ (GetMunicipalityByID (.parsed [muniC1]) ⟨false, []⟩ "08019".toList).1
        = .error (.idNotFound "08019".toList) := by
  exact ⟨rfl, rfl⟩

/-- C5 counterexample: the claim says the result is exactly the set of
records whose name contains the query string itself. For the query
`" Madrid"` (leading space) over a dataset holding one record named
`"Madrid"`, the code trims the query first and returns the record, while
no record name contains `" Madrid"` — so the claimed result set is empty
and differs from the actual result. -/
theorem findByPartialName_untrimmed_counterexample :
    (FindMunicipalitiesByPartialName (.parsed []) ⟨true, [muniMadrid]⟩ " Madrid".toList).1
      = .ok [muniMadrid]
    ∧ claimC5Matches [muniMadrid] " Madrid".toList = [] := by
  exact ⟨rfl, rfl⟩

/-- Every string contains the empty substring. -/
theorem goContains_nil (s : Str) : goContains s [] = true := by
  cases s <;> simp [goContains]

/-- C5 (amended): `FindMunicipalitiesByPartialName` returns, with no
error, exactly the records whose display name contains the
whitespace-trimmed query case-insensitively, in dataset order (an empty
match set yields the empty sequence); the empty query returns every
record. -/
theorem findByPartialName_trimmed_filter (emb : EmbeddedData)
    (ms : List MunicipalityInfo) (s : Str) :
    (FindMunicipalitiesByPartialName emb ⟨true, ms⟩ s).1
      = .ok (ms.filter
          (fun m => goContains (goToLower m.name) (goToLower (goTrimSpace s))))
    ∧ (FindMunicipalitiesByPartialName emb ⟨true, ms⟩ []).1 = .ok ms := by
  constructor
  · rfl
  · have h : (FindMunicipalitiesByPartialName emb ⟨true, ms⟩ []).1
        = .ok (ms.filter (fun m => goContains (goToLower m.name) [])) := rfl
    rw [h]
    congr 1
    exact List.filter_eq_self.mpr (fun a _ => goContains_nil _)

/-- The scan loop of `FindMunicipalityID` finds the first record whose
lowered name equals the normalized query and returns its identifier
(unchanged, given that no stored identifier starts with `"id"`), and
reports not-found exactly when no record matches. -/
theorem findIDLoop_spec (normalized name : Str) (ms : List MunicipalityInfo)
    (hids : ∀ m ∈ ms, goHasPre m.id "id".toList = false) :
    (∀ m, ms.find? (fun m => goToLower m.name == normalized) = some m →
        findIDLoop normalized name ms = .ok m.id)
    ∧ (findIDLoop normalized name ms = .error (.notFound name)
        ↔ ms.find? (fun m => goToLower m.name == normalized) = none) := by
  induction ms with
  | nil =>
    refine ⟨fun m h => by simp [List.find?] at h, ?_⟩
    simp [findIDLoop, List.find?]
  | cons a t ih =>
    have ha : goHasPre a.id ['i', 'd'] = false := hids a (by simp)
    have iht := ih (fun m hm => hids m (by simp [hm]))
    by_cases h : goToLower a.name = normalized
    · refine ⟨fun m hm => ?_, ?_⟩
      · rw [List.find?_cons_of_pos _ (by simp [h])] at hm
        cases hm
        simp [findIDLoop, h, ha]
      · rw [List.find?_cons_of_pos _ (by simp [h])]
        simp [findIDLoop, h]
    · rw [List.find?_cons_of_neg _ (by simp [h])]
      refine ⟨fun m hm => ?_, ?_⟩
      · rw [show findIDLoop normalized name (a :: t) = findIDLoop normalized name t by
          simp [findIDLoop, h]]
        exact iht.1 m hm
      · rw [show findIDLoop normalized name (a :: t) = findIDLoop normalized name t by
          simp [findIDLoop, h]]
        exact iht.2

/-- C7: `FindMunicipalityID` trims and lowercases the query, compares it
to each record's lowered display name for exact equality, returns the
identifier of the first match in dataset order, and fails with the
not-found error if and only if no record matches. (The hypothesis that no
stored identifier starts with `"id"` holds for every loaded dataset:
`load()` strips all leading `'i'`/`'d'` characters, see
`loaded_ids_have_no_id_start`.) -/
theorem findMunicipalityID_exact (emb : EmbeddedData) (ms : List MunicipalityInfo)
    (name : Str) (hids : ∀ m ∈ ms, goHasPre m.id "id".toList = false) :
    (∀ m, ms.find? (fun m => goToLower m.name == goToLower (goTrimSpace name)) = some m →
        (FindMunicipalityID emb ⟨true, ms⟩ name).1 = .ok m.id)
    ∧ ((FindMunicipalityID emb ⟨true, ms⟩ name).1 = .error (.notFound name)
        ↔ ms.find? (fun m => goToLower m.name == goToLower (goTrimSpace name)) = none) := by
  have h := findIDLoop_spec (goToLower (goTrimSpace name)) name ms hids
  exact h

/-- C7 witness: on a one-record dataset for `"Madrid"` (bare identifier
`"28079"`), the padded, differently-cased query `" MADRID "` resolves to
`"28079"`. -/
theorem findMunicipalityID_exact_witness :
    (FindMunicipalityID (.parsed []) ⟨true, [muniMadrid]⟩ " MADRID ".toList).1
      = .ok "28079".toList := by
  have h := findMunicipalityID_exact (.parsed []) [muniMadrid] " MADRID ".toList
    (by decide)
  exact h.1 muniMadrid (by decide)

/-- C9: (a) once the directory is initialized, `initializeMunicipalities`
is a no-op returning success — for every state of the embedded resource,
so nothing is re-read or re-parsed and the records are unchanged; (b) when
the directory is not initialized and the embedded resource is missing
(read failure) or malformed (parse failure), every public lookup returns
the corresponding wrapped load error. -/
theorem initialize_once_and_propagates :
    (∀ emb st, st.initialized = true → initializeMunicipalities emb st = (.ok (), st))
    ∧ (∀ msg st name id, st.initialized = false →
        ((FindMunicipalityID (.readFailure msg) st name).1 = .error (.readErr msg)
        ∧ (FindMunicipalitiesByPartialName (.readFailure msg) st name).1 = .error (.readErr msg)
        ∧ (GetAllMunicipalities (.readFailure msg) st).1 = .error (.readErr msg)
        ∧ (GetMunicipalityByID (.readFailure msg) st id).1 = .error (.readErr msg))
        ∧ ((FindMunicipalityID (.parseFailure msg) st name).1 = .error (.parseErr msg)
        ∧ (FindMunicipalitiesByPartialName (.parseFailure msg) st name).1 = .error (.parseErr msg)
        ∧ (GetAllMunicipalities (.parseFailure msg) st).1 = .error (.parseErr msg)
        ∧ (GetMunicipalityByID (.parseFailure msg) st id).1 = .error (.parseErr msg))) := by
  constructor
  · intro emb st h
    simp [initializeMunicipalities, h]
  · intro msg st name id h
    refine ⟨⟨?_, ?_, ?_, ?_⟩, ⟨?_, ?_, ?_, ?_⟩⟩ <;>
      simp [FindMunicipalityID, FindMunicipalitiesByPartialName,
        GetAllMunicipalities, GetMunicipalityByID, initializeMunicipalities, h]

/-- C9 witness: on a loaded directory a further initialization call is a
success no-op even if the resource would now fail to read, and on an
unloaded directory a read failure surfaces through a public lookup. -/
theorem initialize_once_and_propagates_witness :
    initializeMunicipalities (.readFailure "gone".toList) ⟨true, [muniMadrid]⟩
      = (.ok (), ⟨true, [muniMadrid]⟩)
    ∧ (GetAllMunicipalities (.readFailure "gone".toList) ⟨false, []⟩).1
      = .error (.readErr "gone".toList) := by
  refine ⟨initialize_once_and_propagates.1 _ _ rfl, ?_⟩
  exact ((initialize_once_and_propagates.2 "gone".toList ⟨false, []⟩ [] [] rfl).1).2.2.1

/-- After the load-time trim, no stored identifier starts with `'i'` or
`'d'`, in particular none starts with `"id"`. -/
theorem stripID_no_id_start (s : Str) : goHasPre (stripID s) ['i', 'd'] = false := by
  induction s with
  | nil => rfl
  | cons c t ih =>
    by_cases hc : (("id".toList : Str).contains c) = true
    · have h2 : stripID (c :: t) = stripID t := by
        unfold stripID goTrimLeft
        exact List.dropWhile_cons_of_pos hc
      rw [h2]
      exact ih
    · have h2 : stripID (c :: t) = c :: t := by
        unfold stripID goTrimLeft
        exact List.dropWhile_cons_of_neg hc
      rw [h2]
      have hci : ('i' == c) = false := by
        cases hbeq : ('i' == c)
        · rfl
        · exfalso
          have hceq : c = 'i' := (eq_of_beq hbeq).symm
          rw [hceq] at hc
          exact hc (by decide)
      show (List.isPrefixOf ['i', 'd'] (c :: t)) = false
      simp [List.isPrefixOf, hci]

/-- Every record the load step stores has an identifier that does not
start with `"id"`. -/
theorem loaded_ids_have_no_id_start (records : List MunicipalityInfo) (st : DirState)
    (h : st.initialized = false) (m : MunicipalityInfo)
    (hm : m ∈ (initializeMunicipalities (.parsed records) st).2.municipalities) :
    goHasPre m.id "id".toList = false := by
  simp [initializeMunicipalities, h] at hm
  obtain ⟨m0, _, rfl⟩ := hm
  exact stripID_no_id_start m0.id

/-- Dropping a satisfying block: `dropWhile` over a prefix whose every
element satisfies the predicate continues into the suffix. -/
theorem dropWhile_all_sat_append (p : Char → Bool) (l r : Str)
    (hl : ∀ c ∈ l, p c = true) :
    (l ++ r).dropWhile p = r.dropWhile p := by
  induction l with
  | nil => rfl
  | cons a t ih =>
    have ha : p a = true := hl a (by simp)
    simp only [List.cons_append, List.dropWhile_cons, ha, if_true]
    exact ih (fun c hc => hl c (by simp [hc]))

/-- Lemma: `dropWhile` distributes over an append whose left part survives. -/
theorem dropWhile_append_of_surv (p : Char → Bool) (l r : Str)
    (h : l.dropWhile p ≠ []) :
    (l ++ r).dropWhile p = l.dropWhile p ++ r := by
  induction l with
  | nil => exact absurd rfl h
  | cons a t ih =>
    by_cases ha : p a = true
    · simp only [List.cons_append, List.dropWhile_cons, ha, if_true]
      apply ih
      intro hnil
      exact h (by simp [List.dropWhile_cons, ha, hnil])
    · have ha2 : p a = false := by
        cases hpa : p a
        · rfl
        · exact absurd hpa ha
      simp [List.cons_append, List.dropWhile_cons, ha2]

/-- Whitespace padding on either side does not change `goTrimSpace`. -/
theorem goTrimSpace_pad (s p q : Str) (hp : ∀ c ∈ p, isWS c = true)
    (hq : ∀ c ∈ q, isWS c = true) :
    goTrimSpace (p ++ s ++ q) = goTrimSpace s := by
  unfold goTrimSpace
  rw [List.append_assoc, dropWhile_all_sat_append isWS p (s ++ q) hp]
  by_cases hs : s.dropWhile isWS = []
  · have hsall : ∀ c ∈ s, isWS c = true := by
      intro c hc
      exact List.dropWhile_eq_nil_iff.mp hs c hc
    rw [dropWhile_all_sat_append isWS s q hsall, hs,
      List.dropWhile_eq_nil_iff.mpr (fun c hc => hq c hc)]
  · rw [dropWhile_append_of_surv isWS s q hs, List.reverse_append,
      dropWhile_all_sat_append isWS q.reverse (s.dropWhile isWS).reverse
        (fun c hc => hq c (List.mem_reverse.mp hc))]

/-- C10: `FindMunicipalitiesByPartialName` trims surrounding whitespace
off the query before matching, so a query padded with any whitespace on
either side returns the same result as the bare query, on every dataset. -/
theorem findByPartialName_whitespace_invariant (emb : EmbeddedData)
    (ms : List MunicipalityInfo) (s p q : Str)
    (hp : ∀ c ∈ p, isWS c = true) (hq : ∀ c ∈ q, isWS c = true) :
    (FindMunicipalitiesByPartialName emb ⟨true, ms⟩ (p ++ s ++ q)).1
      = (FindMunicipalitiesByPartialName emb ⟨true, ms⟩ s).1 := by
  have h : goTrimSpace (p ++ s ++ q) = goTrimSpace s := goTrimSpace_pad s p q hp hq
  simp only [FindMunicipalitiesByPartialName, initializeMunicipalities, if_pos, h]

/-- C10 witness: padding the query `"Mad"` with a space and a tab leaves
the result over a one-record dataset unchanged. -/
theorem findByPartialName_whitespace_invariant_witness :
    (FindMunicipalitiesByPartialName (.parsed []) ⟨true, [muniMadrid]⟩
        (" ".toList ++ "Mad".toList ++ [Char.ofNat 9])).1
      = (FindMunicipalitiesByPartialName (.parsed []) ⟨true, [muniMadrid]⟩ "Mad".toList).1 :=
  findByPartialName_whitespace_invariant (.parsed []) [muniMadrid] "Mad".toList
    " ".toList [Char.ofNat 9] (by decide) (by decide)

/-- A string of digits is unchanged by `dropWhile` over the `"id"` cutset. -/
theorem dropWhile_id_cutset_of_digits (code : Str) (h : isNumericCode code = true) :
    code.dropWhile (fun c => ("id".toList : Str).contains c) = code := by
  cases code with
  | nil => rfl
  | cons c t =>
    have hcdig : c.isDigit = true := by
      have := List.all_eq_true.mp h c (by simp)
      exact this
    have hci : ((c == 'i') : Bool) = false := by
      cases hic : ((c == 'i') : Bool)
      · rfl
      · exfalso
        have hceq := eq_of_beq hic
        rw [hceq] at hcdig
        exact absurd hcdig (by decide)
    have hcd : ((c == 'd') : Bool) = false := by
      cases hdc : ((c == 'd') : Bool)
      · rfl
      · exfalso
        have hceq := eq_of_beq hdc
        rw [hceq] at hcdig
        exact absurd hcdig (by decide)
    have hcontains : (("id".toList : Str).contains c) = false := by
      show (List.elem c ['i', 'd']) = false
      simp [List.elem, hci, hcd]
    have hfalse : ¬ ((("id".toList : Str).contains c) = true) := by
      rw [hcontains]
      exact Bool.false_ne_true
    exact List.dropWhile_cons_of_neg hfalse

/-- C8: for dataset records of the shape the spec describes — a raw
identifier that is the literal `"id"` followed by a bare numeric code —
the load-time `TrimLeft(id, "id")` computes exactly the one-prefix strip
the claim states (`specStripOneId`), i.e. it removes the single leading
`"id"` and leaves the bare code otherwise untouched. -/
theorem load_strip_matches_spec (raw : MunicipalityInfo) (code : Str)
    (h1 : raw.id = specRawId code) (h2 : isNumericCode code = true) :
    stripID raw.id = specStripOneId raw.id ∧ stripID raw.id = code := by
  have hstrip : stripID raw.id = code := by
    rw [h1]
    show List.dropWhile (fun c => ("id".toList : Str).contains c)
      ('i' :: 'd' :: code) = code
    rw [List.dropWhile_cons_of_pos (by decide), List.dropWhile_cons_of_pos (by decide)]
    exact dropWhile_id_cutset_of_digits code h2
  have hspec : specStripOneId raw.id = code := by
    rw [h1]
    show (if goHasPre ('i' :: 'd' :: code) "id".toList then ('i' :: 'd' :: code).drop 2
      else ('i' :: 'd' :: code)) = code
    rw [if_pos]
    · rfl
    · show (List.isPrefixOf ['i', 'd'] ('i' :: 'd' :: code)) = true
      simp [List.isPrefixOf]
  exact ⟨hstrip.trans hspec.symm, hstrip⟩

/-- C8 witness: the spec's own example — raw identifier `"id08019"`
strips to the bare code `"08019"`, and the cutset trim agrees with the
literal one-prefix strip there. -/
theorem load_strip_matches_spec_witness :
    stripID muniC1.id = specStripOneId muniC1.id ∧ stripID muniC1.id = "08019".toList :=
  load_strip_matches_spec muniC1 "08019".toList rfl (by decide)

/-- C2 counterexample: under a transport whose first response is the
valid JSON object `{"k": 1}` — no `"datos"` key — `getRedir` does not
fail with a decode error and does not stop after one request: it issues a
second request, to the `%!s(<nil>)`-formatted URL, and surfaces that
request's transport failure wrapped as a request error. -/
theorem getRedir_missing_datos_counterexample :
    (netNoDatos (reqUrl "K".toList "p".toList)
        = .ok (some (Json.obj [("k".toList, Json.num 1)]))
      ∧ jLookup [("k".toList, Json.num 1)] datosKey = none)
    ∧ (getRedir netNoDatos jAny "K".toList "p".toList).requests
        = [reqUrl "K".toList "p".toList, "%!s(<nil>)?api_key=K".toList]
    ∧ (getRedir netNoDatos jAny "K".toList "p".toList).result
        = .error (.requestErr (.transport "unsupported protocol scheme".toList)) := by
  exact ⟨⟨rfl, rfl⟩, rfl, rfl⟩

/-- C2 (amended): when the first response decodes to a JSON object, then
(i) if the object lacks `"datos"`, `getRedir` still issues a second
request — to the URL formed by formatting the nil value, i.e.
`"%!s(<nil>)?api_key=<key>"` — and its outcome is exactly the outcome of
fetching and decoding that URL (no decode error is raised for the missing
key itself); (ii) if `"datos"` holds a string `u`, the second request goes
to `u ++ "?api_key=" ++ key` and the outcome is the fetch-and-decode of
that URL; in particular (iii) when that second fetch returns a body that
decodes to `v`, `getRedir` returns `v`. -/
theorem getRedir_datos_amended (net : Net) (dec : Json → Option α)
    (apiKey path : Str) (fs : List (Str × Json))
    (h1 : net (reqUrl apiKey path) = .ok (some (Json.obj fs))) :
    (jLookup fs datosKey = none →
        (getRedir net dec apiKey path).requests
          = [reqUrl apiKey path, "%!s(<nil>)?api_key=".toList ++ apiKey]
        ∧ (getRedir net dec apiKey path).result
          = fetchDecode net dec ("%!s(<nil>)?api_key=".toList ++ apiKey))
    ∧ (∀ u, jLookup fs datosKey = some (Json.str u) →
        (getRedir net dec apiKey path).requests
          = [reqUrl apiKey path, u ++ "?api_key=".toList ++ apiKey]
        ∧ (getRedir net dec apiKey path).result
          = fetchDecode net dec (u ++ "?api_key=".toList ++ apiKey))
    ∧ (∀ u j v, jLookup fs datosKey = some (Json.str u) →
        net (u ++ "?api_key=".toList ++ apiKey) = .ok (some j) → dec j = some v →
        (getRedir net dec apiKey path).result = .ok v) := by
  refine ⟨fun hn => ?_, fun u hu => ?_, fun u j v hu hnet hdec => ?_⟩
  · simp [getRedir, h1, decodeMapAny, redirUrl, hn, goFmtAny]
  · simp [getRedir, h1, decodeMapAny, redirUrl, hu, goFmtAny]
  · have h2 : (getRedir net dec apiKey path).result
        = fetchDecode net dec (u ++ "?api_key=".toList ++ apiKey) := by
      simp [getRedir, h1, decodeMapAny, redirUrl, hu, goFmtAny]
    rw [h2]
    unfold fetchDecode
    rw [hnet]
    simp [hdec]

/-- C2 witness: the spec's two-step example — first response
`{"datos": "https://x/y"}`, second response `{"a": 1}` — returns the
decoded second body, having requested exactly the endpoint URL and then
`https://x/y?api_key=K`. -/
theorem getRedir_datos_amended_witness :
    (getRedir netWithDatos jAny "K".toList "p".toList).result
      = .ok (Json.obj [("a".toList, Json.num 1)])
    ∧ (getRedir netWithDatos jAny "K".toList "p".toList).requests
      = [reqUrl "K".toList "p".toList, "https://x/y?api_key=K".toList] := by
  have h := getRedir_datos_amended netWithDatos jAny "K".toList "p".toList
    [(datosKey, Json.str "https://x/y".toList)] rfl
  exact ⟨h.2.2 "https://x/y".toList (Json.obj [("a".toList, Json.num 1)])
      (Json.obj [("a".toList, Json.num 1)]) rfl rfl rfl,
    (h.2.1 "https://x/y".toList rfl).1⟩

/-- Exit step of the retry loop: out of iterations. -/
theorem retryAux_zero (net : Nat → Net) (dec : Json → Option α) (apiKey path : Str)
    (attempt : Nat) (lastErr : Option GoErr) (sleeps : List Nat) (count : Nat) :
    retryAux net dec apiKey path 0 attempt lastErr sleeps count
      = ⟨.error (.retryFailed (maxRetries + 1) lastErr), count, sleeps⟩ := rfl

/-- Failing step of the retry loop: record the error, add the backoff
sleep (when this is a retry), and continue. -/
theorem retryAux_step_err (net : Nat → Net) (dec : Json → Option α) (apiKey path : Str)
    (fuel attempt : Nat) (lastErr : Option GoErr) (sleeps : List Nat) (count : Nat)
    (e : GoErr) (he : (getRedir (net attempt) dec apiKey path).result = .error e) :
    retryAux net dec apiKey path (fuel + 1) attempt lastErr sleeps count
      = retryAux net dec apiKey path fuel (attempt + 1) (some e)
          (if attempt > 0 then sleeps ++ [baseBackoffMs * 2 ^ (attempt - 1)] else sleeps)
          (count + 1) := by
  simp only [retryAux, he]

/-- C3: with `maxRetries = 3` and `baseBackoffMs = 100`, when every
invocation of the two-step fetch fails — whatever the failure is — the
retry wrapper makes exactly 4 attempts, sleeps 100ms, 200ms and 400ms
before retries 1, 2 and 3, and surfaces the attempt-3 (last) failure
wrapped in the after-4-attempts error. -/
theorem getRedirWithRetry_policy (net : Nat → Net) (dec : Json → Option α)
    (apiKey path : Str)
    (h : ∀ k, k ≤ maxRetries → ∃ e, (getRedir (net k) dec apiKey path).result = .error e) :
    (getRedirWithRetry net dec apiKey path).attempts = 4
    ∧ (getRedirWithRetry net dec apiKey path).sleeps = [100, 200, 400]
    ∧ ∀ e, (getRedir (net 3) dec apiKey path).result = .error e →
        (getRedirWithRetry net dec apiKey path).result
          = .error (.retryFailed 4 (some e)) := by
  obtain ⟨e0, h0⟩ := h 0 (by decide)
  obtain ⟨e1, h1⟩ := h 1 (by decide)
  obtain ⟨e2, h2⟩ := h 2 (by decide)
  obtain ⟨e3, h3⟩ := h 3 (by decide)
  have s0 : retryAux net dec apiKey path 4 0 none [] 0
      = retryAux net dec apiKey path 3 1 (some e0) [] 1 := by
    have hstep := retryAux_step_err net dec apiKey path 3 0 none [] 0 e0 h0
    simpa using hstep
  have s1 : retryAux net dec apiKey path 3 1 (some e0) [] 1
      = retryAux net dec apiKey path 2 2 (some e1) [100] 2 := by
    have hstep := retryAux_step_err net dec apiKey path 2 1 (some e0) [] 1 e1 h1
    simpa [baseBackoffMs] using hstep
  have s2 : retryAux net dec apiKey path 2 2 (some e1) [100] 2
      = retryAux net dec apiKey path 1 3 (some e2) [100, 200] 3 := by
    have hstep := retryAux_step_err net dec apiKey path 1 2 (some e1) [100] 2 e2 h2
    simpa [baseBackoffMs] using hstep
  have s3 : retryAux net dec apiKey path 1 3 (some e2) [100, 200] 3
      = retryAux net dec apiKey path 0 4 (some e3) [100, 200, 400] 4 := by
    have hstep := retryAux_step_err net dec apiKey path 0 3 (some e2) [100, 200] 3 e3 h3
    simpa [baseBackoffMs] using hstep
  have send : retryAux net dec apiKey path 0 4 (some e3) [100, 200, 400] 4
      = ⟨.error (.retryFailed 4 (some e3)), 4, [100, 200, 400]⟩ := by
    rw [retryAux_zero]
    rfl
  have hrun : getRedirWithRetry net dec apiKey path
      = ⟨.error (.retryFailed 4 (some e3)), 4, [100, 200, 400]⟩ :=
    (s0.trans (s1.trans (s2.trans (s3.trans send))) : _)
  refine ⟨by rw [hrun], by rw [hrun], fun e he => ?_⟩
  rw [h3] at he
  cases he
  rw [hrun]

/-- C3 witness: under the always-failing transport the wrapper makes 4
attempts, sleeps 100/200/400 ms, and wraps the last failure in the
4-attempts error. -/
theorem getRedirWithRetry_policy_witness :
    (getRedirWithRetry alwaysFailNet jAny "K".toList "p".toList).attempts = 4
    ∧ (getRedirWithRetry alwaysFailNet jAny "K".toList "p".toList).sleeps = [100, 200, 400]
    ∧ (getRedirWithRetry alwaysFailNet jAny "K".toList "p".toList).result
      = .error (.retryFailed 4 (some (.requestErr (.transport "boom".toList)))) := by
  have h := getRedirWithRetry_policy alwaysFailNet jAny "K".toList "p".toList
    (fun k _ => ⟨.requestErr (.transport "boom".toList), rfl⟩)
  exact ⟨h.1, h.2.1, h.2.2 _ rfl⟩

/-- C6: for every municipality identifier and every transport behavior,
when the retried fetch decodes the forecast response to the empty
sequence, `GetForecastFor` fails with the no-data error for that
identifier (it does not return a null or empty record); when the decoded
sequence is non-empty it returns the first element. -/
theorem getForecastFor_empty_vs_first (net : Nat → Net) (apiKey muni : Str) :
    ((getRedirWithRetry net decMunicipalityList apiKey (forecastPath muni)).result
        = .ok [] →
      GetForecastFor net apiKey muni = .error (.noData muni))
    ∧ (∀ m rest,
      (getRedirWithRetry net decMunicipalityList apiKey (forecastPath muni)).result
          = .ok (m :: rest) →
      GetForecastFor net apiKey muni = .ok m) := by
  constructor
  · intro h
    simp [GetForecastFor, h]
  · intro m rest h
    simp [GetForecastFor, h]

/-- C6 witness: a transport whose forecast payload decodes to `[]` gives
the no-data error, and one whose payload decodes to `[null]` returns the
first (nil) element rather than an error. -/
theorem getForecastFor_empty_vs_first_witness :
    GetForecastFor netEmptyForecast "K".toList "08019".toList
      = .error (.noData "08019".toList)
    ∧ GetForecastFor netNullForecast "K".toList "08019".toList = .ok none := by
  refine ⟨(getForecastFor_empty_vs_first netEmptyForecast "K".toList "08019".toList).1 rfl,
    (getForecastFor_empty_vs_first netNullForecast "K".toList "08019".toList).2 none [] rfl⟩

/-- C4: on a day carrying both half-day periods, the summary's sky
description and rain probability come from the period with the strictly
higher rain probability — the afternoon on a tie — while its wind
direction and speed come from the period with the higher wind speed
(afternoon on a tie), the two choices made independently. -/
theorem summarySelection_halfday (day : Dia)
    (hm : (extractPeriodData day).hasMorningData = true)
    (ha : (extractPeriodData day).hasAfternoonData = true) :
    (((pmGet (extractPeriodData day).pd morningKey).rainProb
          > (pmGet (extractPeriodData day).pd afternoonKey).rainProb →
        (summarySelection (extractPeriodData day)).rainProb
            = (pmGet (extractPeriodData day).pd morningKey).rainProb
        ∧ (summarySelection (extractPeriodData day)).skyDesc
            = (pmGet (extractPeriodData day).pd morningKey).skyDesc)
    ∧ ((pmGet (extractPeriodData day).pd morningKey).rainProb
          ≤ (pmGet (extractPeriodData day).pd afternoonKey).rainProb →
        (summarySelection (extractPeriodData day)).rainProb
            = (pmGet (extractPeriodData day).pd afternoonKey).rainProb
        ∧ (summarySelection (extractPeriodData day)).skyDesc
            = (pmGet (extractPeriodData day).pd afternoonKey).skyDesc))
    ∧ (((pmGet (extractPeriodData day).pd morningKey).windSpeed
          > (pmGet (extractPeriodData day).pd afternoonKey).windSpeed →
        (summarySelection (extractPeriodData day)).windDir
            = (pmGet (extractPeriodData day).pd morningKey).windDir
        ∧ (summarySelection (extractPeriodData day)).windSpeed
            = (pmGet (extractPeriodData day).pd morningKey).windSpeed)
    ∧ ((pmGet (extractPeriodData day).pd morningKey).windSpeed
          ≤ (pmGet (extractPeriodData day).pd afternoonKey).windSpeed →
        (summarySelection (extractPeriodData day)).windDir
            = (pmGet (extractPeriodData day).pd afternoonKey).windDir
        ∧ (summarySelection (extractPeriodData day)).windSpeed
            = (pmGet (extractPeriodData day).pd afternoonKey).windSpeed)) := by
  have hsel : summarySelection (extractPeriodData day)
      = ⟨(if (pmGet (extractPeriodData day).pd morningKey).rainProb
              > (pmGet (extractPeriodData day).pd afternoonKey).rainProb then
            ((pmGet (extractPeriodData day).pd morningKey).rainProb,
              (pmGet (extractPeriodData day).pd morningKey).skyDesc)
          else ((pmGet (extractPeriodData day).pd afternoonKey).rainProb,
              (pmGet (extractPeriodData day).pd afternoonKey).skyDesc)).1,
        (if (pmGet (extractPeriodData day).pd morningKey).rainProb
              > (pmGet (extractPeriodData day).pd afternoonKey).rainProb then
            ((pmGet (extractPeriodData day).pd morningKey).rainProb,
              (pmGet (extractPeriodData day).pd morningKey).skyDesc)
          else ((pmGet (extractPeriodData day).pd afternoonKey).rainProb,
              (pmGet (extractPeriodData day).pd afternoonKey).skyDesc)).2,
        (if (pmGet (extractPeriodData day).pd morningKey).windSpeed
              > (pmGet (extractPeriodData day).pd afternoonKey).windSpeed then
            ((pmGet (extractPeriodData day).pd morningKey).windDir,
              (pmGet (extractPeriodData day).pd morningKey).windSpeed)
          else ((pmGet (extractPeriodData day).pd afternoonKey).windDir,
              (pmGet (extractPeriodData day).pd afternoonKey).windSpeed)).1,
        (if (pmGet (extractPeriodData day).pd morningKey).windSpeed
              > (pmGet (extractPeriodData day).pd afternoonKey).windSpeed then
            ((pmGet (extractPeriodData day).pd morningKey).windDir,
              (pmGet (extractPeriodData day).pd morningKey).windSpeed)
          else ((pmGet (extractPeriodData day).pd afternoonKey).windDir,
              (pmGet (extractPeriodData day).pd afternoonKey).windSpeed)).2⟩ := by
    simp [summarySelection, hm, ha]
  constructor
  · constructor
    · intro hgt
      rw [hsel]
      simp [hgt]
    · intro hle
      have hngt : ¬ ((pmGet (extractPeriodData day).pd morningKey).rainProb
          > (pmGet (extractPeriodData day).pd afternoonKey).rainProb) := by omega
      rw [hsel]
      simp [hngt]
  · constructor
    · intro hgt
      rw [hsel]
      simp [hgt]
    · intro hle
      have hngt : ¬ ((pmGet (extractPeriodData day).pd morningKey).windSpeed
          > (pmGet (extractPeriodData day).pd afternoonKey).windSpeed) := by omega
      rw [hsel]
      simp [hngt]

/-- C4 witness: a day with 30% morning and 80% afternoon rain probability
has both half-day flags set and its summary reports 80% — the afternoon
value. -/
theorem summarySelection_halfday_witness :
    (summarySelection (extractPeriodData day3080)).rainProb = 80 := by
  have h := summarySelection_halfday day3080 rfl rfl
  exact ((h.1.2 (by decide)).1).trans (by decide)

end Aemet
